import Mathlib

/-!
The build configuration header of goocanvas 2.0.4 as a macro table.

The file src/Clock/goocanvas-2.0.4/config.h is a generated autoconf header.
It holds no functions: every line that is not a comment is an object-like
define of one name with one literal, and the features that configure did not
find are left as commented-out undef lines.  The embedding lists the
directives of the file in file order and derives from them the table the C
preprocessor ends up with, from macro name to literal value.
-/

namespace ConfigH

/-- Literal on the right-hand side of a `#define` of `config.h`: a C string
literal or a decimal integer literal. -/
inductive MacroValue where
  | str (s : String)
  | int (n : Int)
  deriving DecidableEq

/-- One directive of `config.h`.  `undefComment n` stands for the line
`/* #undef n */`, which is a comment and therefore defines nothing. -/
inductive Directive where
  | define (name : String) (value : MacroValue)
  | undefComment (name : String)
  deriving DecidableEq

open MacroValue Directive

/-- The directives of `config.h`, in file order (the number is the line of the
header the directive stands on). -/
def config_h : List Directive :=
  [ undefComment "ENABLE_NLS",                        -- 6
    define "GETTEXT_PACKAGE" (str "goocanvas2"),      -- 9
    define "HAVE_CFLOCALECOPYCURRENT" (int 1),        -- 13
    define "HAVE_CFPREFERENCESCOPYAPPVALUE" (int 1),  -- 17
    undefComment "HAVE_DCGETTEXT",                    -- 21
    define "HAVE_DLFCN_H" (int 1),                    -- 24
    undefComment "HAVE_GETTEXT",                      -- 27
    define "HAVE_ICONV" (int 1),                      -- 30
    define "HAVE_INTTYPES_H" (int 1),                 -- 33
    define "HAVE_MEMORY_H" (int 1),                   -- 36
    define "HAVE_STDINT_H" (int 1),                   -- 39
    define "HAVE_STDLIB_H" (int 1),                   -- 42
    define "HAVE_STRINGS_H" (int 1),                  -- 45
    define "HAVE_STRING_H" (int 1),                   -- 48
    define "HAVE_SYS_STAT_H" (int 1),                 -- 51
    define "HAVE_SYS_TYPES_H" (int 1),                -- 54
    define "HAVE_UNISTD_H" (int 1),                   -- 57
    define "LT_OBJDIR" (str ".libs/"),                -- 61
    define "PACKAGE" (str "goocanvas"),               -- 64
    define "PACKAGE_BUGREPORT" (str ""),              -- 67
    define "PACKAGE_NAME" (str "goocanvas"),          -- 70
    define "PACKAGE_STRING" (str "goocanvas 2.0.4"),  -- 73
    define "PACKAGE_TARNAME" (str "goocanvas"),       -- 76
    define "PACKAGE_URL" (str ""),                    -- 79
    define "PACKAGE_VERSION" (str "2.0.4"),           -- 82
    define "STDC_HEADERS" (int 1),                    -- 85
    define "VERSION" (str "2.0.4") ]                  -- 88

/-- What a directive contributes to the macro table: a `#define` contributes
its name and value, a commented-out `#undef` contributes nothing. -/
def Directive.entry? : Directive → Option (String × MacroValue)
  | define name value => some (name, value)
  | undefComment _ => none

/-- The macro table of `config.h`: the `#define`d names with their values. -/
def macroTable : List (String × MacroValue) :=
  config_h.filterMap Directive.entry?

/-- Value of the macro `name` after `config.h` has been read, `none` when the
header does not define it. -/
def lookup (name : String) : Option MacroValue :=
  macroTable.lookup name

/-- `name` starts with the characters of `pre`. -/
def startsWith (pre name : String) : Bool :=
  pre.toList.isPrefixOf name.toList

/-- The names of the feature flags: `STDC_HEADERS` and everything that starts
with `HAVE_`. -/
def isFlagName (name : String) : Bool :=
  name == "STDC_HEADERS" || startsWith "HAVE_" name

/-- The ten macros that carry package metadata. -/
def stringMacroNames : List String :=
  [ "GETTEXT_PACKAGE", "LT_OBJDIR", "PACKAGE", "PACKAGE_BUGREPORT",
    "PACKAGE_NAME", "PACKAGE_STRING", "PACKAGE_TARNAME", "PACKAGE_URL",
    "PACKAGE_VERSION", "VERSION" ]

/-- The fifteen macros that `config.h` defines with an integer literal: the
fourteen `HAVE_` flags of lines 13 to 57 and `STDC_HEADERS` of line 85. -/
def flagMacroNames : List String :=
  [ "HAVE_CFLOCALECOPYCURRENT", "HAVE_CFPREFERENCESCOPYAPPVALUE",
    "HAVE_DLFCN_H", "HAVE_ICONV", "HAVE_INTTYPES_H", "HAVE_MEMORY_H",
    "HAVE_STDINT_H", "HAVE_STDLIB_H", "HAVE_STRINGS_H", "HAVE_STRING_H",
    "HAVE_SYS_STAT_H", "HAVE_SYS_TYPES_H", "HAVE_UNISTD_H", "STDC_HEADERS" ]

/-! Properties of the table. -/

/-- No macro is defined twice, so the table is a function of the name whatever
the order of the lines. -/
theorem macroTable_names_nodup : (macroTable.map Prod.fst).Nodup := by
  decide

/-- A successful lookup returns an entry of the list. -/
theorem mem_of_lookup_eq_some {l : List (String × MacroValue)} {name : String}
    {v : MacroValue} (h : l.lookup name = some v) : (name, v) ∈ l := by
  induction l with
  | nil => simp at h
  | cons p l ih =>
    obtain ⟨k, w⟩ := p
    by_cases hk : name = k
    · subst hk
      simp [List.lookup] at h
      simp [h]
    · have hb : (name == k) = false := by simpa using hk
      simp only [List.lookup, hb] at h
      exact List.mem_cons_of_mem _ (ih h)

/-- Every entry of the table is either a feature flag with the value 1, whose
name is one of the fifteen flag names and none of the ten metadata names, or
one of the ten metadata names with a string value. -/
theorem macroTable_entries :
    ∀ e ∈ macroTable,
      (e.2 = int 1 ∧ isFlagName e.1 = true ∧ e.1 ∈ flagMacroNames ∧
        e.1 ∉ stringMacroNames) ∨
      ((∃ s, e.2 = str s) ∧ isFlagName e.1 = false ∧ e.1 ∉ flagMacroNames ∧
        e.1 ∈ stringMacroNames) := by
  have key : ∀ e ∈ macroTable,
      (e.2 = int 1 ∧ isFlagName e.1 = true ∧ e.1 ∈ flagMacroNames ∧
        e.1 ∉ stringMacroNames) ∨
      ((match e.2 with | str _ => true | int _ => false) = true ∧
        isFlagName e.1 = false ∧ e.1 ∉ flagMacroNames ∧
        e.1 ∈ stringMacroNames) := by
    decide
  intro e he
  rcases key e he with h | ⟨h1, h2, h3, h4⟩
  · exact Or.inl h
  · refine Or.inr ⟨?_, h2, h3, h4⟩
    cases hv : e.2 with
    | str s => exact ⟨s, rfl⟩
    | int n => simp [hv] at h1

/-- Each of the fifteen flag names is defined with the value 1 and is
`STDC_HEADERS` or starts with `HAVE_`. -/
theorem flagMacroNames_defined :
    ∀ m ∈ flagMacroNames,
      lookup m = some (int 1) ∧
      (m = "STDC_HEADERS" ∨ startsWith "HAVE_" m = true) := by
  decide

/-- C1: `PACKAGE_VERSION` is defined and is exactly the string "2.0.4", and
`PACKAGE` is defined and is exactly the string "goocanvas". -/
theorem package_version_and_package :
    lookup "PACKAGE_VERSION" = some (str "2.0.4") ∧
    lookup "PACKAGE" = some (str "goocanvas") := by
  constructor <;> decide

/-- C2: a macro that `config.h` defines has a string value or the integer 1;
its value is an integer exactly when its name is `STDC_HEADERS` or starts with
`HAVE_`, and then the value is 1; its value is a string exactly when it is one
of the ten metadata macros, each of which is indeed defined with a string.
`STDC_HEADERS` is defined with the value 1, and so is each of the fourteen
`HAVE_` macros of the header; these fifteen are all the integer-valued
macros. -/
theorem defined_macro_value_kinds (name : String) (v : MacroValue)
    (h : lookup name = some v) :
    (v = int 1 ∨ ∃ s, v = str s) ∧
    ((∃ n, v = int n) ↔ (name = "STDC_HEADERS" ∨ startsWith "HAVE_" name = true)) ∧
    ((∃ n, v = int n) → v = int 1) ∧
    ((∃ s, v = str s) ↔ name ∈ stringMacroNames) ∧
    (∀ m ∈ stringMacroNames, ∃ s, lookup m = some (str s)) ∧
    lookup "STDC_HEADERS" = some (int 1) ∧
    (∀ m ∈ flagMacroNames,
      lookup m = some (int 1) ∧
      (m = "STDC_HEADERS" ∨ startsWith "HAVE_" m = true)) ∧
    ((∃ n, v = int n) ↔ name ∈ flagMacroNames) := by
  have hflag : isFlagName name = true ↔
      (name = "STDC_HEADERS" ∨ startsWith "HAVE_" name = true) := by
    simp [isFlagName]
  have hall : ∀ m ∈ stringMacroNames, ∃ s, lookup m = some (str s) := by
    intro m hm
    simp only [stringMacroNames, List.mem_cons, List.mem_singleton,
      List.mem_nil_iff, or_false] at hm
    rcases hm with h | h | h | h | h | h | h | h | h | h <;> subst h <;>
      exact ⟨_, rfl⟩
  have hstdc : lookup "STDC_HEADERS" = some (int 1) := by decide
  rcases macroTable_entries (name, v) (mem_of_lookup_eq_some h) with
    ⟨h1, h2, h3, h4⟩ | ⟨⟨s, h1⟩, h2, h3, h4⟩
  · simp only at h1 h2 h3 h4
    subst h1
    refine ⟨Or.inl rfl, ?_, fun _ => rfl, ?_, hall, hstdc,
      flagMacroNames_defined, ?_⟩
    · exact ⟨fun _ => hflag.mp h2, fun _ => ⟨1, rfl⟩⟩
    · exact ⟨fun ⟨s, hs⟩ => (by cases hs), fun hm => absurd hm h4⟩
    · exact ⟨fun _ => h3, fun _ => ⟨1, rfl⟩⟩
  · simp only at h1 h2 h3 h4
    subst h1
    refine ⟨Or.inr ⟨s, rfl⟩, ?_, ?_, ?_, hall, hstdc,
      flagMacroNames_defined, ?_⟩
    · constructor
      · rintro ⟨n, hn⟩
        cases hn
      · intro hf
        rw [hflag.mpr hf] at h2
        cases h2
    · rintro ⟨n, hn⟩
      cases hn
    · exact ⟨fun _ => h4, fun _ => ⟨s, rfl⟩⟩
    · constructor
      · rintro ⟨n, hn⟩
        cases hn
      · intro hm
        exact absurd hm h3

/-- Witness for C2 at the defined flag `STDC_HEADERS`, whose value is 1. -/
theorem defined_macro_value_kinds_witness :
    lookup "STDC_HEADERS" = some (int 1) ∧
    ((int 1 = int 1 ∨ ∃ s, int 1 = str s) ∧
     ((∃ n, int 1 = int n) ↔
        ("STDC_HEADERS" = "STDC_HEADERS" ∨
          startsWith "HAVE_" "STDC_HEADERS" = true)) ∧
     ((∃ n, int 1 = int n) → int 1 = int 1) ∧
     ((∃ s, int 1 = str s) ↔ "STDC_HEADERS" ∈ stringMacroNames) ∧
     (∀ m ∈ stringMacroNames, ∃ s, lookup m = some (str s)) ∧
     lookup "STDC_HEADERS" = some (int 1) ∧
     (∀ m ∈ flagMacroNames,
       lookup m = some (int 1) ∧
       (m = "STDC_HEADERS" ∨ startsWith "HAVE_" m = true)) ∧
     ((∃ n, int 1 = int n) ↔ "STDC_HEADERS" ∈ flagMacroNames)) :=
  ⟨by decide, defined_macro_value_kinds "STDC_HEADERS" (int 1) (by decide)⟩

/-- C3: the three identity macros are defined with string values and the value
of `PACKAGE_STRING` is the value of `PACKAGE_NAME`, one space, and the value of
`PACKAGE_VERSION`. -/
theorem package_string_consistent :
    ∃ nm ver full,
      lookup "PACKAGE_NAME" = some (str nm) ∧
      lookup "PACKAGE_VERSION" = some (str ver) ∧
      lookup "PACKAGE_STRING" = some (str full) ∧
      nm = "goocanvas" ∧ ver = "2.0.4" ∧ full = "goocanvas 2.0.4" ∧
      full = nm ++ " " ++ ver :=
  ⟨"goocanvas", "2.0.4", "goocanvas 2.0.4",
    by decide, by decide, by decide, rfl, rfl, rfl, by decide⟩

/-- C4: `VERSION` and `PACKAGE_VERSION` are both defined and have the same
value, and `PACKAGE`, `PACKAGE_NAME` and `PACKAGE_TARNAME` are all defined and
have one and the same value. -/
theorem duplicated_macros_agree :
    (∃ ver, lookup "VERSION" = some ver ∧ lookup "PACKAGE_VERSION" = some ver) ∧
    (∃ nm, lookup "PACKAGE" = some nm ∧ lookup "PACKAGE_NAME" = some nm ∧
      lookup "PACKAGE_TARNAME" = some nm) :=
  ⟨⟨str "2.0.4", by decide, by decide⟩,
   ⟨str "goocanvas", by decide, by decide, by decide⟩⟩

/-- C5: `ENABLE_NLS`, `HAVE_GETTEXT` and `HAVE_DCGETTEXT` are not defined (the
header only carries them as commented-out `#undef` lines, and the lookup finds
nothing), while `GETTEXT_PACKAGE` is defined as the string "goocanvas2". -/
theorem nls_switched_off :
    lookup "ENABLE_NLS" = none ∧
    lookup "HAVE_GETTEXT" = none ∧
    lookup "HAVE_DCGETTEXT" = none ∧
    undefComment "ENABLE_NLS" ∈ config_h ∧
    undefComment "HAVE_GETTEXT" ∈ config_h ∧
    undefComment "HAVE_DCGETTEXT" ∈ config_h ∧
    lookup "GETTEXT_PACKAGE" = some (str "goocanvas2") := by
  refine ⟨?_, ?_, ?_, ?_, ?_, ?_, ?_⟩ <;> decide

end ConfigH
